import Mathlib

/-!
Verification development for the barter subsystem of the
Kelompok-2-SWE-Arkavidia backend (Go).

The definitions below are a shallow embedding of the Go source:

* `pkg/barter` repository layer (file `part_002` of the source tree):
  the barter item / chat / transaction tables and the operations
  `CreateBarterItem`, `UpdateBarterItemStatus`, `UpdateBarterChatStatus`,
  `ConfirmBarterTransaction`, `GetBarterStatistics`, and the SQL text
  building of `GetNearbyBarterItems`.
* `pkg/barter/barter_service.go`: the service-layer `CreateBarterItem`.
* The semantics of the raw PostgreSQL `earthdistance` query issued by
  `GetNearbyBarterItems` (functions `ll_to_earth`, `earth_box`,
  `gc_to_sec`, `earth_distance` of the `earthdistance` extension).

The GORM database calls auto-commit one statement at a time; stateful
operations are therefore embedded as state-passing functions returning the
new database state together with an optional error, and every database
statement is given an explicit failure switch (`Faults`) so that mid-sequence
failures of the underlying store can be expressed.

Service-layer operations whose implementation is not in the source tree
(only the `BarterService` interface declares them) are modelled from the
specification and carry a doc comment starting with `Modelled from the spec:`.

Machine floats (Go float64 coordinates) are modelled as rationals for the
catalog operations and as real numbers for the geographic query semantics;
timestamps are abstract natural numbers.
-/

namespace Arkavidia

instance {ε α : Type} [DecidableEq ε] [DecidableEq α] :
    DecidableEq (Except ε α) := fun a b =>
  match a, b with
  | .error e, .error f =>
    if h : e = f then .isTrue (by rw [h])
    else .isFalse (by intro hh; injection hh; contradiction)
  | .ok x, .ok y =>
    if h : x = y then .isTrue (by rw [h])
    else .isFalse (by intro hh; injection hh; contradiction)
  | .error _, .ok _ => .isFalse (by intro hh; exact Except.noConfusion hh)
  | .ok _, .error _ => .isFalse (by intro hh; exact Except.noConfusion hh)

/-- A calendar date, as produced by Go `time.Parse("2006-01-02", s)`. -/
structure DateYMD where
  year : Nat
  month : Nat
  day : Nat
deriving DecidableEq, Repr

/-- Lexicographic order on dates (used by the expiry-bound comparison). -/
def dateLe (a b : DateYMD) : Prop :=
  a.year < b.year ∨ (a.year = b.year ∧ (a.month < b.month ∨
    (a.month = b.month ∧ a.day ≤ b.day)))

instance (a b : DateYMD) : Decidable (dateLe a b) := by
  unfold dateLe; infer_instance

/-- Split a character list into the groups separated by dashes. -/
def splitOnDash : List Char → List (List Char)
  | [] => [[]]
  | c :: rest =>
    let r := splitOnDash rest
    if c = '-' then [] :: r
    else match r with
      | g :: gs => (c :: g) :: gs
      | [] => [[c]]

/-- Read a non-empty all-digit character group as a number. -/
def digitsToNat? (cs : List Char) : Option Nat :=
  if cs ≠ [] ∧ cs.all Char.isDigit then
    some (cs.foldl (fun n c => 10 * n + (c.toNat - 48)) 0)
  else none

/-- Model of Go `time.Parse("2006-01-02", s)`: a `YYYY-MM-DD` string with
numeric fields and in-range month and day parses; anything else fails. -/
def parseDateYMD (s : String) : Option DateYMD :=
  match splitOnDash s.data with
  | [y, m, d] =>
    if y.length = 4 ∧ m.length = 2 ∧ d.length = 2 then
      match digitsToNat? y, digitsToNat? m, digitsToNat? d with
      | some yn, some mn, some dn =>
        if 1 ≤ mn ∧ mn ≤ 12 ∧ 1 ≤ dn ∧ dn ≤ 31 then
          some ⟨yn, mn, dn⟩
        else none
      | _, _, _ => none
    else none
  | _ => none

/-- Row of the `barter_items` table (`entities.BarterItem`).  The coordinate
type is a parameter: rationals for the catalog operations, reals for the
geographic query semantics. -/
structure BarterItemRow (α : Type) where
  id : Nat
  userId : String
  foodItemId : Option String
  name : String
  description : String
  quantity : Int
  unitMeasure : String
  expiryDate : DateYMD
  condition : String
  imageURL : String
  status : String
  latitude : α
  longitude : α
  preferredSwap : String
deriving DecidableEq, Repr

/-- Row of the `barter_chats` table (`entities.BarterChat`). -/
structure BarterChatRow where
  id : Nat
  barterItemId : Nat
  offererId : String
  ownerId : String
  status : String
  lastMessageTime : Nat
deriving DecidableEq, Repr

/-- Row of the `barter_transactions` table (`entities.BarterTransaction`).
Meetup fields are omitted: no claim concerns them. -/
structure BarterTxnRow where
  id : Nat
  chatId : Nat
  ownerConfirmed : Bool
  offererConfirmed : Bool
  status : String
  coinsCharged : Nat
  completedAt : Option Nat
deriving DecidableEq, Repr

/-- Row of the `barter_transaction_items` join table
(`entities.BarterTransactionItem`). -/
structure BarterTxnItemRow where
  id : Nat
  transactionId : Nat
  barterItemId : Nat
  ownerItem : Bool
deriving DecidableEq, Repr

/-- The relational store visible to the barter repository. -/
structure DB (α : Type) where
  items : List (BarterItemRow α)
  chats : List BarterChatRow
  txns : List BarterTxnRow
  txnItems : List BarterTxnItemRow
deriving DecidableEq, Repr

/-- Error outcomes surfaced by the embedded operations. -/
inductive BErr where
  | dbError
  | recordNotFound
  | unauthorized
  | alreadyCompleted
  | insufficientFunds
  | validationError
  | invalidDate
  | parseError
  | uploadError
deriving DecidableEq, Repr

/-- Failure switches for the individual database statements executed by
`ConfirmBarterTransaction`; a `true` field makes the corresponding statement
return a database error (GORM auto-commits, so previously executed
statements keep their effects). -/
structure Faults where
  updFlags : Bool
  readTxn : Bool
  updStatus : Bool
  updChat : Bool
  getItems : Bool
  updItems : Bool
deriving DecidableEq, Repr

/-- All statements succeed. -/
def noFaults : Faults := ⟨false, false, false, false, false, false⟩

/-- Repository `UpdateBarterItemStatus` (part_002 lines 167-172): an
unconditional `UPDATE barter_items SET status = ? WHERE id = ?`. -/
def updateBarterItemStatus {α} (db : DB α) (id : Nat) (status : String) :
    DB α :=
  { db with items := db.items.map fun it =>
      if it.id = id then { it with status := status } else it }

/-- Repository `UpdateBarterChatStatus` (part_002 lines 237-242): an
unconditional `UPDATE barter_chats SET status = ? WHERE id = ?`. -/
def updateBarterChatStatus {α} (db : DB α) (id : Nat) (status : String) :
    DB α :=
  { db with chats := db.chats.map fun c =>
      if c.id = id then { c with status := status } else c }

/-- `First` on `barter_transactions` by id. -/
def findTxn {α} (db : DB α) (id : Nat) : Option BarterTxnRow :=
  db.txns.find? (fun t => t.id = id)

/-- `First` on `barter_chats` by id. -/
def findChat {α} (db : DB α) (id : Nat) : Option BarterChatRow :=
  db.chats.find? (fun c => c.id = id)

/-- `find?` on `barter_items` by id, projected to the status column. -/
def lookupItemStatus {α} (db : DB α) (id : Nat) : Option String :=
  (db.items.find? (fun it => it.id = id)).map (fun it => it.status)

/-- Repository `GetBarterTransactionItems` (part_002 lines 319-328). -/
def getBarterTransactionItems {α} (db : DB α) (txnId : Nat) :
    List BarterTxnItemRow :=
  db.txnItems.filter (fun ti => ti.transactionId = txnId)

/-- The fixed per-transaction coin cost (part_002 line 13,
`BARTER_TRANSACTION_COIN_COST = 5`). -/
def BARTER_TRANSACTION_COIN_COST : Nat := 5

/-- Repository `ConfirmBarterTransaction` (part_002 lines 330-391), statement
by statement:
1. `Updates` of the caller's confirmation flag, `WHERE id = ?`;
2. `First` re-read of the transaction;
3. if both flags are now true: `Updates` of `status`/`completed_at`, then
   `UpdateBarterChatStatus(chat, "Completed")`, then
   `GetBarterTransactionItems`, then one `UpdateBarterItemStatus` per linked
   item.
Each statement auto-commits; a failure (per `Faults`) returns the error with
all previously committed effects kept.  There is no coin-ledger call and no
write of `coins_charged` in this function. -/
def confirmBarterTransaction {α} (f : Faults) (now : Nat) (db : DB α)
    (txnId : Nat) (isOwner : Bool) : DB α × Option BErr :=
  if f.updFlags then (db, some .dbError) else
  let db1 : DB α := { db with txns := db.txns.map (fun t =>
    if t.id = txnId then
      (if isOwner then { t with ownerConfirmed := true }
       else { t with offererConfirmed := true })
    else t) }
  if f.readTxn then (db1, some .dbError) else
  match findTxn db1 txnId with
  | none => (db1, some .recordNotFound)
  | some t =>
    if t.ownerConfirmed && t.offererConfirmed then
      if f.updStatus then (db1, some .dbError) else
      let db2 : DB α := { db1 with txns := db1.txns.map (fun u =>
        if u.id = txnId then
          { u with status := "Completed", completedAt := some now }
        else u) }
      if f.updChat then (db2, some .dbError) else
      let db3 := updateBarterChatStatus db2 t.chatId "Completed"
      if f.getItems then (db3, some .dbError) else
      let its := getBarterTransactionItems db3 txnId
      if f.updItems ∧ its ≠ [] then (db3, some .dbError) else
      (its.foldl (fun d ti => updateBarterItemStatus d ti.barterItemId
        "Completed") db3, none)
    else (db1, none)

/-! ### SQL text construction of `GetNearbyBarterItems` (part_002 lines 113-152)

The Go function builds the raw query by string concatenation and then binds
`lat, lng, lat, lng, radiusMeters` as the only parameters.  The text
construction is embedded verbatim; the expiry cutoff date
(`time.Now().AddDate(0, 0, expiryMaxDays)` formatted as `2006-01-02`) is
passed in already formatted. -/

/-- The constant head of the raw query (part_002 lines 120-125). -/
def nearbyBaseQuery : String :=
  "\n\t\tSELECT *, \n\t\t       earth_distance(ll_to_earth(?, ?), ll_to_earth(latitude, longitude)) as distance \n\t\tFROM barter_items \n\t\tWHERE earth_box(ll_to_earth(?, ?), ?) @> ll_to_earth(latitude, longitude) \n\t"

/-- The SQL text sent to the store by `GetNearbyBarterItems`, exactly as the
Go code concatenates it (status clause, own-items clause, expiry clause,
order-by).  `\x27` is the single-quote character of the SQL literals. -/
def getNearbyQueryText (latitude longitude radius : ℚ) (userID : String)
    (includeOwn : Bool) (status : String) (expiryMaxDays : Int)
    (expiryCutoff : String) : String :=
  let _ := (latitude, longitude, radius)
  let q := nearbyBaseQuery
  let q := if status ≠ "All" ∧ status ≠ "" then
      q ++ " AND status = \x27" ++ status ++ "\x27"
    else
      q ++ " AND status = \x27Available\x27"
  let q := if ¬ includeOwn then
      q ++ " AND user_id != \x27" ++ userID ++ "\x27"
    else q
  let q := if expiryMaxDays > 0 then
      q ++ " AND expiry_date <= \x27" ++ expiryCutoff ++ "\x27"
    else q
  q ++ " ORDER BY distance ASC"

/-- The bound parameters of the raw query: `lat, lng, lat, lng,
radius * 1000` (part_002 lines 150-152). -/
def getNearbyQueryParams (latitude longitude radius : ℚ) : List ℚ :=
  [latitude, longitude, latitude, longitude, radius * 1000]

/-! ### `GetBarterStatistics` (part_002 lines 393-444) -/

/-- The statistics aggregate (the `map[string]interface{}` of the Go code,
with its numeric fields; the `estimated_impact` message string is the
rendering of `food_waste_saved` and carries no extra data). -/
structure BarterStats where
  totalBartersInitiated : Nat
  totalBartersCompleted : Nat
  totalItemsTraded : Nat
  totalCoinsSpent : Nat
  foodWasteSaved : ℚ
deriving DecidableEq, Repr

/-- Repository `GetBarterStatistics` (part_002 lines 393-444): four `SELECT`
counts (the join of `barter_transaction_items` with transactions and chats
is embedded by row-id lookup; ids are primary keys) and two derived values:
`total_coins_spent = bartersCompleted * BARTER_TRANSACTION_COIN_COST` and
`food_waste_saved = itemsTraded * 0.3`.  The operation only reads, so it
returns the store unchanged. -/
def getBarterStatistics {α} (db : DB α) (userID : String) :
    DB α × BarterStats :=
  let bartersInitiated :=
    (db.chats.filter fun c => decide (c.offererId = userID)).length
  let bartersCompleted :=
    (db.chats.filter fun c => decide ((c.offererId = userID ∨
      c.ownerId = userID) ∧ c.status = "Completed")).length
  let itemsTraded :=
    (db.txnItems.filter fun ti => db.txns.any fun t =>
      decide (t.id = ti.transactionId ∧ t.status = "Completed" ∧
        db.chats.any (fun c => decide (c.id = t.chatId ∧
          (c.offererId = userID ∨ c.ownerId = userID))) = true)).length
  (db,
   { totalBartersInitiated := bartersInitiated
     totalBartersCompleted := bartersCompleted
     totalItemsTraded := itemsTraded
     totalCoinsSpent := bartersCompleted * BARTER_TRANSACTION_COIN_COST
     foodWasteSaved := (itemsTraded : ℚ) * (3 / 10) })

/-! ### Service layer: `CreateBarterItem` (src/pkg/barter/barter_service.go) -/

/-- The request body `domain.BarterItemRequest` (src/domain/food_item.go).
The optional multipart image is abstracted to its presence. -/
structure BarterItemRequest where
  name : String
  description : String
  quantity : Int
  unitMeasure : String
  expiryDate : String
  condition : String
  hasImage : Bool
  foodItemID : String
  preferredSwap : String
deriving DecidableEq, Repr

/-- The response body `domain.BarterItem` as filled by the service
(user-profile enrichment fields omitted: they depend only on the identity
provider, not on the barter store). -/
structure DomainBarterItem (α : Type) where
  id : Nat
  userId : String
  name : String
  description : String
  quantity : Int
  unitMeasure : String
  expiryDate : DateYMD
  condition : String
  imageURL : String
  status : String
  latitude : α
  longitude : α
  preferredSwap : String
deriving DecidableEq, Repr

/-- The coin ledger: per-user balances (external collaborator, §6). -/
def Ledger : Type := List (String × Int)

instance : DecidableEq Ledger := by unfold Ledger; infer_instance

/-- Full system state: the relational store, the media storage bucket
(object keys), and the external coin ledger. -/
structure Sys (α : Type) where
  db : DB α
  s3 : List String
  ledger : Ledger
deriving DecidableEq

/-- Model of `uuid.Parse` success: the canonical 36-character shape. -/
def uuidOk (s : String) : Bool := s.length = 36

/-- Service `CreateBarterItem` (barter_service.go lines 48-152), step by
step: parse the expiry date (fail fast), default the condition to
`Opened` when it is not one of the four allowed values, parse the user id,
upload the image when one is attached (`upOk` is the S3 outcome; on failure
the call aborts), parse the optional food-item reference (a parse failure
is silently dropped, `err == nil` check), insert the row with
`Status: "Available"`, and return the response with `Status: "Available"`.
`newId` stands for `uuid.New()`.  No check of `quantity` appears anywhere
in this function. -/
def createBarterItem {α} (upOk : Bool) (newId : Nat)
    (req : BarterItemRequest) (userID : String) (latitude longitude : α)
    (s : Sys α) : Sys α × Except BErr (DomainBarterItem α) :=
  match parseDateYMD req.expiryDate with
  | none => (s, .error .invalidDate)
  | some expiry =>
    let condition := if req.condition = "Sealed" ∨ req.condition = "Opened"
        ∨ req.condition = "New" ∨ req.condition = "Used" then req.condition
      else "Opened"
    if uuidOk userID = false then (s, .error .parseError) else
    match (if req.hasImage then
            (if upOk then some (some ("barters/barter-" ++ toString newId))
             else none)
           else some none : Option (Option String)) with
    | none => (s, .error .uploadError)
    | some objectKey =>
      let s3 := match objectKey with
        | some key => s.s3 ++ [key]
        | none => s.s3
      let imageURL := match objectKey with
        | some key => "https://storage/" ++ key
        | none => ""
      let foodItemId := if req.foodItemID ≠ "" ∧ uuidOk req.foodItemID then
          some req.foodItemID
        else none
      let row : BarterItemRow α :=
        { id := newId, userId := userID, foodItemId := foodItemId
          name := req.name, description := req.description
          quantity := req.quantity, unitMeasure := req.unitMeasure
          expiryDate := expiry, condition := condition, imageURL := imageURL
          status := "Available", latitude := latitude
          longitude := longitude, preferredSwap := req.preferredSwap }
      ({ s with s3 := s3, db := { s.db with items := s.db.items ++ [row] } },
       .ok { id := newId, userId := userID, name := req.name
             description := req.description, quantity := req.quantity
             unitMeasure := req.unitMeasure, expiryDate := expiry
             condition := condition, imageURL := imageURL
             status := "Available", latitude := latitude
             longitude := longitude, preferredSwap := req.preferredSwap })

/-- The `validate` tags on `domain.BarterItemRequest`
(src/domain/food_item.go): `name`, `description`, `unit_measure`,
`expiry_date` are `required`; `quantity` is `required,min=1`; `condition`
is `required,oneof=Sealed Opened New Used`; `food_item_id` is
`omitempty,uuid`. -/
def validBarterItemRequest (req : BarterItemRequest) : Bool :=
  req.name ≠ "" ∧ req.description ≠ "" ∧ req.quantity ≥ 1 ∧
  req.unitMeasure ≠ "" ∧ req.expiryDate ≠ "" ∧
  (req.condition = "Sealed" ∨ req.condition = "Opened" ∨
   req.condition = "New" ∨ req.condition = "Used") ∧
  (req.foodItemID = "" ∨ uuidOk req.foodItemID = true)

/-- Modelled from the spec: the transport-layer create handler.  The barter
HTTP handler is not in the source tree; every handler that is
(food, donation, coin) parses the body, runs `validator.Struct(req)` and
returns a validation error without touching any service, and the spec fixes
the same policy ("input validation happens before any mutation is
attempted").  The validation rules themselves are the `validate` tags of
`domain.BarterItemRequest`, which are in the source tree
(`validBarterItemRequest`). -/
def createBarterItemViaHandler {α} (upOk : Bool) (newId : Nat)
    (req : BarterItemRequest) (userID : String) (latitude longitude : α)
    (s : Sys α) : Sys α × Except BErr (DomainBarterItem α) :=
  if validBarterItemRequest req then
    createBarterItem upOk newId req userID latitude longitude s
  else (s, .error .validationError)

/-! ### Modelled service layer: transaction proposal, coin ledger and
confirmation -/

/-- Modelled from the spec: the transaction row created by
`proposeTransaction` (§4.4) — status `Pending`, both confirmation flags
false, nothing charged, no completion timestamp.  The service
implementation (`CompleteBarterTransaction`) is not in the source tree;
only this initial state matters for the claims below. -/
def proposedBarterTxn (id chatId : Nat) : BarterTxnRow :=
  { id := id, chatId := chatId, ownerConfirmed := false
    offererConfirmed := false, status := "Pending", coinsCharged := 0
    completedAt := none }

/-- Balance lookup in the coin ledger. -/
def lookupBalance (l : Ledger) (u : String) : Int :=
  match l.find? (fun p => p.1 = u) with
  | some p => p.2
  | none => 0

/-- Modelled from the spec: `chargeCoins(userId, amount, reason) ->
Result<NewBalance, InsufficientFunds>` (§6). -/
def chargeCoins (l : Ledger) (u : String) (amount : Int) : Option Ledger :=
  if lookupBalance l u ≥ amount then
    some (l.map fun p => if p.1 = u then (p.1, p.2 - amount) else p)
  else none

/-- Modelled from the spec: the finalize charges "the fixed per-transaction
coin cost against both participants' balances" (§4.4 step 4); if either
charge is rejected the whole charge fails. -/
def chargeBothParticipants (l : Ledger) (ownerId offererId : String)
    (amount : Int) : Option Ledger :=
  match chargeCoins l ownerId amount with
  | none => none
  | some l1 => chargeCoins l1 offererId amount

/-- Modelled from the spec: `confirmCompletion(transactionId, userId)`
(§4.4).  The service implementation (`ConfirmBarterCompletion`) is not in
the source tree (only the `BarterService` interface declares it); this
definition follows the spec's words: resolve whether `userId` is the chat's
owner or offerer and fail `Unauthorized` otherwise; fail `AlreadyCompleted`
if the transaction status is already `Completed`; set the caller's
confirmation flag; re-read both flags, and if both are true finalize as one
atomic unit — transaction status `Completed` with `completedAt = now` and
`coinsCharged` recorded, chat `Completed`, every linked item `Completed`,
and `BARTER_TRANSACTION_COIN_COST` charged to both participants through the
coin ledger; if the charge fails the finalize is rolled back and only the
confirmation flag persists.  The flag update and finalize writes reuse the
embedded repository statements. -/
def confirmBarterCompletion {α} (now : Nat) (s : Sys α) (txnId : Nat)
    (userId : String) : Sys α × Option BErr :=
  match findTxn s.db txnId with
  | none => (s, some .recordNotFound)
  | some t =>
    match findChat s.db t.chatId with
    | none => (s, some .recordNotFound)
    | some chat =>
      if userId ≠ chat.ownerId ∧ userId ≠ chat.offererId then
        (s, some .unauthorized)
      else if t.status = "Completed" then (s, some .alreadyCompleted)
      else
        let isOwner := userId = chat.ownerId
        let setFlag : BarterTxnRow → BarterTxnRow := fun u =>
          if isOwner then { u with ownerConfirmed := true }
          else { u with offererConfirmed := true }
        let dbFlag : DB α := { s.db with txns := s.db.txns.map fun u =>
          if u.id = txnId then (setFlag u) else u }
        let t1 := setFlag t
        if t1.ownerConfirmed && t1.offererConfirmed then
          match chargeBothParticipants s.ledger chat.ownerId chat.offererId
              (BARTER_TRANSACTION_COIN_COST : Int) with
          | none => ({ s with db := dbFlag }, some .insufficientFunds)
          | some l2 =>
            let db2 : DB α := { dbFlag with txns := dbFlag.txns.map fun u =>
              if u.id = txnId then
                { u with status := "Completed", completedAt := some now
                         coinsCharged := BARTER_TRANSACTION_COIN_COST }
              else u }
            let db3 := updateBarterChatStatus db2 t.chatId "Completed"
            let db4 := (getBarterTransactionItems db3 txnId).foldl
              (fun d ti => updateBarterItemStatus d ti.barterItemId
                "Completed") db3
            ({ db := db4, s3 := s.s3, ledger := l2 }, none)
        else ({ s with db := dbFlag }, none)

/-! ### Execution sequences -/

/-- One repository confirmation call (caller side, timestamp), keeping the
store state. -/
def repoConfirmStep {α} (txnId : Nat) (db : DB α) (c : Bool × Nat) : DB α :=
  (confirmBarterTransaction noFaults c.2 db txnId c.1).1

/-- Run a sequence of repository confirmation calls. -/
def runRepoConfirms {α} (txnId : Nat) (db : DB α) (calls : List (Bool × Nat)) :
    DB α :=
  calls.foldl (repoConfirmStep txnId) db

/-- One service confirmation call (caller user id, timestamp). -/
def svcConfirmStep {α} (txnId : Nat) (s : Sys α) (c : String × Nat) : Sys α :=
  (confirmBarterCompletion c.2 s txnId c.1).1

/-- Run a sequence of service confirmation calls. -/
def runSvcConfirms {α} (txnId : Nat) (s : Sys α) (calls : List (String × Nat)) :
    Sys α :=
  calls.foldl (svcConfirmStep txnId) s

/-- Whether the transaction row reads as completed. -/
def txnIsCompleted {α} (db : DB α) (txnId : Nat) : Bool :=
  match findTxn db txnId with
  | some t => t.status = "Completed"
  | none => false

/-- Number of false-to-true rises in a boolean trace (used to count
`Pending → Completed` transitions). -/
def countRises : List Bool → Nat
  | a :: b :: rest => (if a = false ∧ b = true then 1 else 0) +
      countRises (b :: rest)
  | _ => 0

/-- Modelled from the spec: the system state right after
`proposeTransaction` on an active chat — one chat (owner `o`, offerer `w`),
one pending transaction with both flags false, and the external ledger
holding the participants' balances. -/
def svcInitSys {α} (its : List (BarterItemRow α))
    (tis : List BarterTxnItemRow) (s3v : List String)
    (tid cid bitm lmt : Nat) (o w : String) (b1 b2 : Int) : Sys α :=
  { db := { items := its
            chats := [⟨cid, bitm, w, o, "Active", lmt⟩]
            txns := [proposedBarterTxn tid cid]
            txnItems := tis }
    s3 := s3v
    ledger := [(o, b1), (w, b2)] }

/-- Induction invariant for runs of the service confirmation: the store
holds the one transaction and its chat, and either nothing has been charged
(status still `Pending`) or the transaction is `Completed` with the fixed
cost recorded once and both balances charged once. -/
def svcRunInv {α} (tid cid : Nat) (o w : String) (b1 b2 : Int)
    (s : Sys α) : Prop :=
  ∃ t ch, s.db.txns = [t] ∧ s.db.chats = [ch] ∧ t.id = tid ∧
    t.chatId = cid ∧ ch.id = cid ∧ ch.ownerId = o ∧ ch.offererId = w ∧
    ((t.status = "Pending" ∧ t.coinsCharged = 0 ∧
        s.ledger = [(o, b1), (w, b2)]) ∨
     (t.status = "Completed" ∧
        t.coinsCharged = BARTER_TRANSACTION_COIN_COST ∧
        s.ledger = [(o, b1 - BARTER_TRANSACTION_COIN_COST),
                    (w, b2 - BARTER_TRANSACTION_COIN_COST)]))

/-- Induction invariant for a store holding exactly the one transaction the
confirmation calls act on: the `Completed` status is equivalent to both
confirmation flags. -/
def singleTxnInv {α} (db : DB α) (tid : Nat) : Prop :=
  ∃ t : BarterTxnRow, db.txns = [t] ∧ t.id = tid ∧
    (t.status = "Completed" ↔
      (t.ownerConfirmed = true ∧ t.offererConfirmed = true))

/-! ### Semantics of the raw geographic query

`GetNearbyBarterItems` sends the text built by `getNearbyQueryText` to
PostgreSQL with the `earthdistance` extension.  The extension's functions
on a sphere of radius `earth() = 6378168` metres:

* `ll_to_earth(lat, lng)` — the 3-D point of the latitude/longitude pair
  (degrees);
* `gc_to_sec(d)` — the chord length corresponding to great-circle distance
  `d` (clamped at half the circumference);
* `earth_box(loc, r)` — `cube_enlarge(loc, gc_to_sec(r), 3)`, the axis
  aligned cube of half-width `gc_to_sec(r)` around `loc`; the filter
  `earth_box(...) @> ll_to_earth(latitude, longitude)` is componentwise
  interval membership;
* `earth_distance` — the great-circle distance, computed here by the
  equivalent spherical law of cosines.

The `WHERE` clause of the query tests only box membership — the code issues
no `earth_distance(...) <= radius` recheck — and orders by
`earth_distance` ascending. -/

/-- `earth()` of the `earthdistance` extension, in metres. -/
noncomputable def earthRadius : ℝ := 6378168

/-- Degrees to radians. -/
noncomputable def deg2rad (x : ℝ) : ℝ := x * Real.pi / 180

/-- `ll_to_earth(lat, lng)`: the 3-D surface point. -/
noncomputable def llToEarth (lat lng : ℝ) : ℝ × ℝ × ℝ :=
  (earthRadius * Real.cos (deg2rad lat) * Real.cos (deg2rad lng),
   earthRadius * Real.cos (deg2rad lat) * Real.sin (deg2rad lng),
   earthRadius * Real.sin (deg2rad lat))

/-- `gc_to_sec(d)`: great-circle distance to chord length. -/
noncomputable def gcToSec (d : ℝ) : ℝ :=
  2 * earthRadius * Real.sin (min d (Real.pi * earthRadius) /
    (2 * earthRadius))

/-- The `earth_box(ll_to_earth(qlat, qlng), rMeters) @>
ll_to_earth(lat, lng)` filter of the query. -/
def earthBoxContains (qlat qlng rMeters lat lng : ℝ) : Prop :=
  |(llToEarth lat lng).1 - (llToEarth qlat qlng).1| ≤ gcToSec rMeters ∧
  |(llToEarth lat lng).2.1 - (llToEarth qlat qlng).2.1| ≤ gcToSec rMeters ∧
  |(llToEarth lat lng).2.2 - (llToEarth qlat qlng).2.2| ≤ gcToSec rMeters

/-- Great-circle distance in metres between two latitude/longitude pairs
(spherical law of cosines; equal to the extension's `earth_distance` on the
sphere of radius `earth()`). -/
noncomputable def greatCircleDistance (lat1 lng1 lat2 lng2 : ℝ) : ℝ :=
  earthRadius * Real.arccos
    (Real.sin (deg2rad lat1) * Real.sin (deg2rad lat2) +
     Real.cos (deg2rad lat1) * Real.cos (deg2rad lat2) *
       Real.cos (deg2rad lng1 - deg2rad lng2))

/-- The status clause appended to the query text: the requested status, or
`Available` when the caller passes `All` or the empty string. -/
def nearbyStatusOk (statusParam itemStatus : String) : Prop :=
  if statusParam ≠ "All" ∧ statusParam ≠ "" then itemStatus = statusParam
  else itemStatus = "Available"

/-- The own-items clause: `user_id != requester` unless `includeOwn`. -/
def nearbyUserOk (includeOwn : Bool) (userID itemUser : String) : Prop :=
  includeOwn = true ∨ itemUser ≠ userID

/-- The expiry clause: `expiry_date <= cutoff`, only when
`expiryMaxDays > 0` (the cutoff is `now + expiryMaxDays` days, passed in
precomputed as in `getNearbyQueryText`). -/
def nearbyExpiryOk (expiryMaxDays : Int) (cutoff expiry : DateYMD) : Prop :=
  expiryMaxDays ≤ 0 ∨ dateLe expiry cutoff

/-- Declarative semantics of the rows produced by the raw
`GetNearbyBarterItems` query: exactly the stored rows passing the `WHERE`
clause (box membership plus the three concatenated filters), ordered by
non-decreasing `earth_distance`. -/
def nearbyResultSem (rows : List (BarterItemRow ℝ))
    (lat lng radiusKm : ℝ) (userID : String) (includeOwn : Bool)
    (statusParam : String) (expiryMaxDays : Int) (cutoff : DateYMD)
    (res : List (BarterItemRow ℝ)) : Prop :=
  List.Pairwise (fun a b =>
    greatCircleDistance lat lng a.latitude a.longitude ≤
      greatCircleDistance lat lng b.latitude b.longitude) res ∧
  ∀ it, it ∈ res ↔ (it ∈ rows ∧
    earthBoxContains lat lng (radiusKm * 1000) it.latitude it.longitude ∧
    nearbyStatusOk statusParam it.status ∧
    nearbyUserOk includeOwn userID it.userId ∧
    nearbyExpiryOk expiryMaxDays cutoff it.expiryDate)

/-! ### Spec-side definitions (for comparison with the embedded code) -/

/-- The item lifecycle order of spec §3:
`Available → Reserved → Completed`. -/
def statusRank (s : String) : Nat :=
  if s = "Available" then 0
  else if s = "Reserved" then 1
  else if s = "Completed" then 2
  else 3

/-- Spec §4.5 wording: the user's completed barters, "as either role". -/
def specUserCompletedBarters {α} (db : DB α) (userID : String) : Nat :=
  db.chats.countP fun c => decide ((c.offererId = userID ∨
    c.ownerId = userID) ∧ c.status = "Completed")

/-- Spec §4.5 wording: "items whose linked transaction is `Completed`"
(and whose chat involves the user). -/
def specUserItemsTraded {α} (db : DB α) (userID : String) : Nat :=
  db.txnItems.countP fun ti => decide (∃ t ∈ db.txns,
    t.id = ti.transactionId ∧ t.status = "Completed" ∧
    ∃ c ∈ db.chats, c.id = t.chatId ∧
      (c.offererId = userID ∨ c.ownerId = userID))

/-! ### Concrete states used by the counterexamples and witnesses -/

/-- A stored barter item (rational coordinates). -/
def exItemRow : BarterItemRow ℚ :=
  { id := 3, userId := "ownerU", foodItemId := none, name := "jam"
    description := "a jar of jam", quantity := 1, unitMeasure := "jar"
    expiryDate := ⟨2025, 1, 2⟩, condition := "Opened", imageURL := ""
    status := "Available", latitude := 0, longitude := 0
    preferredSwap := "" }

/-- The chat between offerer `offV` and owner `ownerU` over `exItemRow`. -/
def exChatRow : BarterChatRow :=
  { id := 7, barterItemId := 3, offererId := "offV", ownerId := "ownerU"
    status := "Active", lastMessageTime := 0 }

/-- A pending transaction on that chat, owner already confirmed. -/
def c2Txn : BarterTxnRow :=
  { id := 1, chatId := 7, ownerConfirmed := true, offererConfirmed := false
    status := "Pending", coinsCharged := 0, completedAt := none }

/-- Store state for the atomicity counterexample. -/
def c2Db : DB ℚ :=
  { items := [exItemRow], chats := [exChatRow], txns := [c2Txn]
    txnItems := [⟨21, 1, 3, true⟩] }

/-- Fault pattern: the chat-status `UPDATE` of the finalize fails. -/
def c2Faults : Faults := ⟨false, false, false, true, false, false⟩

/-- Store state with one item already `Completed`. -/
def c5Db : DB ℚ :=
  { items := [{ exItemRow with status := "Completed" }], chats := []
    txns := [], txnItems := [] }

/-- A stored item on the equator at longitude 135° (3π/4 radians east of
the query point used below). -/
def c7Item : BarterItemRow ℝ :=
  { id := 9, userId := "farAway", foodItemId := none, name := "rice"
    description := "bag of rice", quantity := 2, unitMeasure := "kg"
    expiryDate := ⟨2025, 6, 1⟩, condition := "Sealed", imageURL := ""
    status := "Available", latitude := 0, longitude := 135
    preferredSwap := "" }

/-- Query radius (km) whose great-circle length is one third of the
circumference: the `earth_box` half-width `gc_to_sec` of it is
`earth() * sqrt 3`. -/
noncomputable def c7RadiusKm : ℝ := 2 * Real.pi * earthRadius / 3 / 1000

/-- A well-formed user id (36-character uuid shape). -/
def exUuid : String := "123e4567-e89b-12d3-a456-426614174000"

/-- A valid create request (no image attached). -/
def c10Req : BarterItemRequest :=
  { name := "jam", description := "d", quantity := 1, unitMeasure := "jar"
    expiryDate := "2025-01-02", condition := "Opened", hasImage := false
    foodItemID := "", preferredSwap := "" }

/-- The same request with a non-positive quantity. -/
def c8Req : BarterItemRequest := { c10Req with quantity := 0 }

/-- An empty system state. -/
def c10Sys : Sys ℚ :=
  { db := { items := [], chats := [], txns := [], txnItems := [] }
    s3 := [], ledger := [] }

/-- The row `createBarterItem` persists for `c10Req`. -/
def c10Row : BarterItemRow ℚ :=
  { id := 5, userId := exUuid, foodItemId := none, name := "jam"
    description := "d", quantity := 1, unitMeasure := "jar"
    expiryDate := ⟨2025, 1, 2⟩, condition := "Opened", imageURL := ""
    status := "Available", latitude := 0, longitude := 0
    preferredSwap := "" }

/-- The system state after that create. -/
def c10SysAfter : Sys ℚ :=
  { db := { items := [c10Row], chats := [], txns := [], txnItems := [] }
    s3 := [], ledger := [] }

/-- The response `createBarterItem` returns for `c10Req`. -/
def c10Item : DomainBarterItem ℚ :=
  { id := 5, userId := exUuid, name := "jam", description := "d"
    quantity := 1, unitMeasure := "jar", expiryDate := ⟨2025, 1, 2⟩
    condition := "Opened", imageURL := "", status := "Available"
    latitude := 0, longitude := 0, preferredSwap := "" }

/-- System state with a transaction already `Completed`. -/
def c3Sys : Sys ℚ :=
  { db := { items := [exItemRow], chats := [exChatRow]
            txns := [⟨1, 7, true, true, "Completed", 5, some 42⟩]
            txnItems := [⟨21, 1, 3, true⟩] }
    s3 := []
    ledger := [("ownerU", 3), ("offV", 9)] }

/-! ## Theorems -/

/-- Helper: `find?` by id after an id-preserving status rewrite. -/
theorem find?_map_statusUpdate {α} (l : List (BarterItemRow α)) (id : Nat)
    (st : String) (r : BarterItemRow α)
    (h : l.find? (fun it => it.id = id) = some r) :
    (l.map fun it => if it.id = id then { it with status := st } else it).find?
      (fun it => it.id = id) = some { r with status := st } := by
  induction l with
  | nil => simp [List.find?] at h
  | cons a t ih =>
    by_cases ha : a.id = id
    · rw [List.find?_cons_of_pos _ (by simp [ha])] at h
      injection h with h; subst h
      simp only [List.map_cons, if_pos ha]
      rw [List.find?_cons_of_pos _ (by simp [ha])]
    · rw [List.find?_cons_of_neg _ (by simp [ha])] at h
      simp only [List.map_cons, if_neg ha]
      rw [List.find?_cons_of_neg _ (by simp [ha])]
      exact ih h

set_option maxRecDepth 100000 in
/-- C2: the four-step finalize is not all-or-nothing.  Concrete failing
run: transaction 1 is `Pending` with the owner already confirmed; the
offerer confirms and the chat-status `UPDATE` fails.  The call returns the
database error, yet the transaction row is already committed as
`Completed` with `completed_at` set, while the chat is still `Active` and
the linked item still `Available` — a partial finalize persists and the
transaction does not remain `Pending`. -/
theorem confirmBarterTransaction_finalize_not_atomic :
    (confirmBarterTransaction c2Faults 99 c2Db 1 false).2 =
      some BErr.dbError ∧
    (findTxn (confirmBarterTransaction c2Faults 99 c2Db 1 false).1 1).map
      (fun t => t.status) = some "Completed" ∧
    (findTxn (confirmBarterTransaction c2Faults 99 c2Db 1 false).1 1).map
      (fun t => t.completedAt) = some (some 99) ∧
    (findChat (confirmBarterTransaction c2Faults 99 c2Db 1 false).1 7).map
      (fun c => c.status) = some "Active" ∧
    lookupItemStatus (confirmBarterTransaction c2Faults 99 c2Db 1 false).1 3 =
      some "Available" := by
  decide

/-- C5 (counterexample): `UpdateBarterItemStatus` does not assert the
forward-only transition — applied to an item whose status is `Completed`,
a request to move it back to `Available` is accepted and committed, a
strictly backward step in the §3 lifecycle order. -/
theorem updateBarterItemStatus_backward_accepted :
    lookupItemStatus (updateBarterItemStatus c5Db 3 "Available") 3 =
      some "Available" ∧
    statusRank "Available" < statusRank "Completed" := by
  decide

/-- C5 (amended): `UpdateBarterItemStatus` is an unconditional write: it
sets the item's status to exactly the supplied value whatever the current
status, with no transition check — in particular for transitions that are
not forward steps of the `Available → Reserved → Completed` order. -/
theorem updateBarterItemStatus_unconditional {α} (db : DB α) (id : Nat)
    (old new : String) (h : lookupItemStatus db id = some old) :
    lookupItemStatus (updateBarterItemStatus db id new) id = some new := by
  unfold lookupItemStatus at h ⊢
  unfold updateBarterItemStatus
  cases hf : db.items.find? (fun it => it.id = id) with
  | none => rw [hf] at h; simp at h
  | some r =>
    rw [find?_map_statusUpdate db.items id new r hf]
    rfl

/-- Witness for `updateBarterItemStatus_unconditional`: the `Completed`
item of `c5Db` is moved back to `Reserved`. -/
theorem updateBarterItemStatus_unconditional_witness :
    lookupItemStatus c5Db 3 = some "Completed" ∧
    lookupItemStatus (updateBarterItemStatus c5Db 3 "Reserved") 3 =
      some "Reserved" :=
  ⟨by decide, updateBarterItemStatus_unconditional c5Db 3 "Completed"
    "Reserved" (by decide)⟩

set_option maxRecDepth 100000 in
/-- C6 (counterexample): two `GetNearbyBarterItems` invocations differing
only in the requester's user id (a caller-influenced value) produce
different query texts — the id is concatenated into the SQL rather than
bound. -/
theorem getNearbyQueryText_depends_on_userID :
    getNearbyQueryText 1 2 3 "alice" false "" 0 "" ≠
      getNearbyQueryText 1 2 3 "bob" false "" 0 "" := by
  decide

set_option maxRecDepth 100000 in
/-- C6 (amended): only the spatial values are bound parameters — the query
text is identical across invocations differing in latitude, longitude and
radius (which travel in the parameter list) — while the status filter, the
requester's user id (when own items are excluded) and the expiry cutoff are
string-concatenated into the text, so the text differs across invocations
differing only in those values. -/
theorem getNearbyQueryText_bound_and_concatenated :
    (∀ lat1 lng1 r1 lat2 lng2 r2 : ℚ, ∀ uid st cut, ∀ own : Bool,
      ∀ emd : Int,
      getNearbyQueryText lat1 lng1 r1 uid own st emd cut =
        getNearbyQueryText lat2 lng2 r2 uid own st emd cut) ∧
    getNearbyQueryText 0 0 1 "u" false "Reserved" 0 "" ≠
      getNearbyQueryText 0 0 1 "u" false "Completed" 0 "" ∧
    getNearbyQueryText 0 0 1 "u" true "" 1 "2025-01-01" ≠
      getNearbyQueryText 0 0 1 "u" true "" 1 "2025-01-02" ∧
    getNearbyQueryParams 0 0 2 = [0, 0, 0, 0, 2000] := by
  refine ⟨fun _ _ _ _ _ _ _ _ _ _ _ => rfl, by decide, by decide, ?_⟩
  simp only [getNearbyQueryParams]
  norm_num

/-- C3: once a transaction's status is `Completed`, any further
`confirmCompletion` call leaves the entire system state unchanged — the
completion timestamp is not altered, no coin charge runs, and no chat or
item status update is re-applied (the call is rejected by the
`AlreadyCompleted` guard before any write). -/
theorem confirmBarterCompletion_completed_noop {α} (now : Nat) (s : Sys α)
    (txnId : Nat) (u : String) (t : BarterTxnRow)
    (h1 : findTxn s.db txnId = some t) (h2 : t.status = "Completed") :
    (confirmBarterCompletion now s txnId u).1 = s := by
  cases hc : findChat s.db t.chatId with
  | none => simp [confirmBarterCompletion, h1, hc]
  | some chat =>
    by_cases hu : u ≠ chat.ownerId ∧ u ≠ chat.offererId
    · simp [confirmBarterCompletion, h1, hc, hu]
    · simp [confirmBarterCompletion, h1, hc, hu, h2]

/-- Witness for `confirmBarterCompletion_completed_noop`: a third
confirmation by the offerer on the completed transaction of `c3Sys`. -/
theorem confirmBarterCompletion_completed_noop_witness :
    findTxn c3Sys.db 1 = some ⟨1, 7, true, true, "Completed", 5, some 42⟩ ∧
    (confirmBarterCompletion 100 c3Sys 1 "offV").1 = c3Sys :=
  ⟨by decide, confirmBarterCompletion_completed_noop 100 c3Sys 1 "offV"
    ⟨1, 7, true, true, "Completed", 5, some 42⟩ (by decide) (by decide)⟩

/-- C9: the statistics aggregate is a pure read — the store is returned
unchanged — and its derived fields satisfy the spec formulas: total coins
spent is the user's completed-barter count times the fixed per-transaction
cost, and the estimated food-waste mass saved is the number of items traded
(items whose linked transaction is `Completed`) times the fixed 0.3 kg
constant. -/
theorem getBarterStatistics_pure_and_formulas {α} (db : DB α) (u : String) :
    (getBarterStatistics db u).1 = db ∧
    (getBarterStatistics db u).2.totalCoinsSpent =
      specUserCompletedBarters db u * BARTER_TRANSACTION_COIN_COST ∧
    (getBarterStatistics db u).2.foodWasteSaved =
      (specUserItemsTraded db u : ℚ) * (3 / 10) := by
  have hp : (fun (ti : BarterTxnItemRow) => db.txns.any fun t =>
      decide (t.id = ti.transactionId ∧ t.status = "Completed" ∧
        db.chats.any (fun c => decide (c.id = t.chatId ∧
          (c.offererId = u ∨ c.ownerId = u))) = true)) =
      (fun ti => decide (∃ t ∈ db.txns, t.id = ti.transactionId ∧
        t.status = "Completed" ∧ ∃ c ∈ db.chats, c.id = t.chatId ∧
          (c.offererId = u ∨ c.ownerId = u))) := by
    funext ti
    rw [Bool.eq_iff_iff]
    simp [List.any_eq_true]
  refine ⟨rfl, ?_, ?_⟩
  · unfold getBarterStatistics specUserCompletedBarters
    rw [List.countP_eq_length_filter]
  · unfold getBarterStatistics specUserItemsTraded
    rw [List.countP_eq_length_filter, ← hp]

/-- C10: every item persisted and returned by the service `CreateBarterItem`
has status `Available`, whatever the request contains — the status is
hard-coded in both the stored row and the response, and no request field
can influence it. -/
theorem createBarterItem_status_always_available {α} (upOk : Bool)
    (newId : Nat) (req : BarterItemRequest) (userID : String) (la lo : α)
    (s s' : Sys α) (item : DomainBarterItem α)
    (h : createBarterItem upOk newId req userID la lo s =
      (s', Except.ok item)) :
    item.status = "Available" ∧
    ∀ r ∈ s'.db.items, r ∈ s.db.items ∨ r.status = "Available" := by
  unfold createBarterItem at h
  repeat' split at h
  all_goals try simp at h
  all_goals (
    try simp only [Prod.mk.injEq, Except.ok.injEq] at h
    obtain ⟨hs, hi⟩ := h
    subst hs
    refine ⟨by rw [← hi], ?_⟩
    intro r hr
    simp only [List.mem_append, List.mem_singleton] at hr
    rcases hr with hr | hr
    · exact Or.inl hr
    · exact Or.inr (by rw [hr]))

/-- Witness for `createBarterItem_status_always_available`: the successful
create of `c10Req`. -/
theorem createBarterItem_status_always_available_witness :
    createBarterItem true 5 c10Req exUuid (0 : ℚ) 0 c10Sys =
      (c10SysAfter, Except.ok c10Item) ∧
    (c10Item.status = "Available" ∧
      ∀ r ∈ c10SysAfter.db.items, r ∈ c10Sys.db.items ∨
        r.status = "Available") :=
  ⟨by decide, createBarterItem_status_always_available true 5 c10Req exUuid
    (0 : ℚ) 0 c10Sys c10SysAfter c10Item (by decide)⟩

/-- C8: a create request whose quantity is not strictly positive is
rejected with a validation error before any mutation — the system state
(item rows and media storage alike) is returned unchanged, so no row is
created and no image is uploaded.  The check is the `min=1` rule of the
request's `validate` tag, applied before the service runs. -/
theorem createItem_nonpositive_quantity_rejected {α} (upOk : Bool)
    (newId : Nat) (req : BarterItemRequest) (userID : String) (la lo : α)
    (s : Sys α) (h : req.quantity ≤ 0) :
    createBarterItemViaHandler upOk newId req userID la lo s =
      (s, Except.error BErr.validationError) := by
  have hv : validBarterItemRequest req = false := by
    unfold validBarterItemRequest
    rw [decide_eq_false_iff_not]
    rintro ⟨-, -, hq, -⟩
    omega
  simp [createBarterItemViaHandler, hv]

/-- Witness for `createItem_nonpositive_quantity_rejected`: quantity 0. -/
theorem createItem_nonpositive_quantity_rejected_witness :
    c8Req.quantity ≤ 0 ∧
    createBarterItemViaHandler true 5 c8Req exUuid (0 : ℚ) 0 c10Sys =
      (c10Sys, Except.error BErr.validationError) :=
  ⟨by decide, createItem_nonpositive_quantity_rejected true 5 c8Req exUuid
    (0 : ℚ) 0 c10Sys (by decide)⟩

/-- Helper: the per-item status updates of the finalize never touch the
transactions table. -/
theorem foldl_updateItemStatus_txns {α} (l : List BarterTxnItemRow)
    (db : DB α) :
    (l.foldl (fun d ti => updateBarterItemStatus d ti.barterItemId
      "Completed") db).txns = db.txns := by
  induction l generalizing db with
  | nil => rfl
  | cons a tl ih =>
    rw [List.foldl_cons, ih]
    rfl

/-- Helper: shape of one repository confirmation call on a store holding
exactly the target transaction: the caller's flag is set, and the status
becomes `Completed` exactly when both flags are set afterwards (otherwise
it is untouched). -/
theorem repoConfirmStep_single {α} (db : DB α) (t : BarterTxnRow) (tid : Nat)
    (c : Bool × Nat) (hbase : db.txns = [t]) (hid : t.id = tid) :
    ∃ t', (repoConfirmStep tid db c).txns = [t'] ∧ t'.id = tid ∧
      t'.ownerConfirmed = (c.1 || t.ownerConfirmed) ∧
      t'.offererConfirmed = (!c.1 || t.offererConfirmed) ∧
      t'.status = if ((c.1 || t.ownerConfirmed) &&
          (!c.1 || t.offererConfirmed)) = true then "Completed"
        else t.status := by
  obtain ⟨c1, n⟩ := c
  cases c1 with
  | true =>
    by_cases hoff : t.offererConfirmed = true
    · refine ⟨({ t with ownerConfirmed := true, status := "Completed", completedAt := some n } : BarterTxnRow), ?_, ?_, ?_, ?_, ?_⟩ <;>
        simp [repoConfirmStep, confirmBarterTransaction, noFaults, hbase,
          hid, findTxn, hoff, updateBarterChatStatus,
          foldl_updateItemStatus_txns]
    · refine ⟨{ t with ownerConfirmed := true }, ?_, ?_, ?_, ?_, ?_⟩ <;>
        simp [repoConfirmStep, confirmBarterTransaction, noFaults, hbase,
          hid, findTxn, hoff, updateBarterChatStatus,
          foldl_updateItemStatus_txns]
  | false =>
    by_cases hown : t.ownerConfirmed = true
    · refine ⟨({ t with offererConfirmed := true, status := "Completed", completedAt := some n } : BarterTxnRow), ?_, ?_, ?_, ?_, ?_⟩ <;>
        simp [repoConfirmStep, confirmBarterTransaction, noFaults, hbase,
          hid, findTxn, hown, updateBarterChatStatus,
          foldl_updateItemStatus_txns]
    · refine ⟨{ t with offererConfirmed := true }, ?_, ?_, ?_, ?_, ?_⟩ <;>
        simp [repoConfirmStep, confirmBarterTransaction, noFaults, hbase,
          hid, findTxn, hown, updateBarterChatStatus,
          foldl_updateItemStatus_txns]

/-- Helper: one confirmation call preserves the status-iff-flags
invariant. -/
theorem singleTxnInv_step {α} (db : DB α) (tid : Nat) (c : Bool × Nat)
    (h : singleTxnInv db tid) : singleTxnInv (repoConfirmStep tid db c) tid := by
  obtain ⟨t, hbase, hid, hiff⟩ := h
  obtain ⟨t', h1, h2, h3, h4, h5⟩ := repoConfirmStep_single db t tid c hbase hid
  refine ⟨t', h1, h2, ?_⟩
  by_cases hb : ((c.1 || t.ownerConfirmed) &&
      (!c.1 || t.offererConfirmed)) = true
  · rw [h5, if_pos hb]
    rw [Bool.and_eq_true] at hb
    simp [h3, h4, hb.1, hb.2]
  · rw [h5, if_neg hb]
    constructor
    · intro hst
      obtain ⟨o1, o2⟩ := hiff.mp hst
      exact (hb (by rw [o1, o2]; simp)).elim
    · rintro ⟨x, y⟩
      rw [h3] at x
      rw [h4] at y
      exact (hb (by rw [x, y]; rfl)).elim

/-- Helper: a completed transaction stays completed across one
confirmation call. -/
theorem txnCompleted_step_mono {α} (db : DB α) (tid : Nat) (c : Bool × Nat)
    (h : singleTxnInv db tid) (hc : txnIsCompleted db tid = true) :
    txnIsCompleted (repoConfirmStep tid db c) tid = true := by
  obtain ⟨t, hbase, hid, hiff⟩ := h
  obtain ⟨t', h1, h2, h3, h4, h5⟩ := repoConfirmStep_single db t tid c hbase hid
  have hf : findTxn db tid = some t := by
    simp [findTxn, hbase, hid]
  have hst : t.status = "Completed" := by
    unfold txnIsCompleted at hc
    rw [hf] at hc
    exact of_decide_eq_true hc
  obtain ⟨o1, o2⟩ := hiff.mp hst
  have hf' : findTxn (repoConfirmStep tid db c) tid = some t' := by
    simp [findTxn, h1, h2]
  unfold txnIsCompleted
  rw [hf']
  apply decide_eq_true
  rw [h5, if_pos (by rw [o1, o2]; simp)]

/-- Helper: a completed transaction stays completed across any run of
confirmation calls. -/
theorem txnCompleted_run_mono {α} (l : List (Bool × Nat)) (db : DB α)
    (tid : Nat) (h : singleTxnInv db tid)
    (hc : txnIsCompleted db tid = true) :
    txnIsCompleted (l.foldl (repoConfirmStep tid) db) tid = true := by
  induction l generalizing db with
  | nil => exact hc
  | cons a tl ih =>
    rw [List.foldl_cons]
    exact ih _ (singleTxnInv_step _ _ _ h) (txnCompleted_step_mono _ _ _ h hc)

/-- Helper: invariant preservation along the whole trace, and the count of
`Pending → Completed` rises of the trace. -/
theorem c4_run_aux {α} (calls : List (Bool × Nat)) (db : DB α) (tid : Nat)
    (h : singleTxnInv db tid) :
    (∀ x ∈ List.scanl (repoConfirmStep tid) db calls, singleTxnInv x tid) ∧
    countRises ((List.scanl (repoConfirmStep tid) db calls).map
        (fun d => txnIsCompleted d tid)) =
      (if txnIsCompleted (calls.foldl (repoConfirmStep tid) db) tid = true ∧
          txnIsCompleted db tid = false then 1 else 0) := by
  induction calls generalizing db with
  | nil =>
    refine ⟨?_, ?_⟩
    · intro x hx
      simp only [List.scanl, List.mem_singleton] at hx
      rw [hx]
      exact h
    · simp only [List.scanl, List.map_cons, List.map_nil, List.foldl_nil]
      rw [if_neg (by rintro ⟨hx, hy⟩; rw [hx] at hy; exact Bool.noConfusion hy)]
      rfl
  | cons c cs ih =>
    have hstep := singleTxnInv_step db tid c h
    obtain ⟨ihInv, ihCnt⟩ := ih (repoConfirmStep tid db c) hstep
    constructor
    · intro x hx
      rw [List.scanl_cons, List.singleton_append, List.mem_cons] at hx
      rcases hx with hx | hx
      · rw [hx]; exact h
      · exact ihInv x hx
    · obtain ⟨rest, hrest⟩ : ∃ rest,
          List.scanl (repoConfirmStep tid) (repoConfirmStep tid db c) cs =
            (repoConfirmStep tid db c) :: rest := by
        cases cs <;> exact ⟨_, rfl⟩
      rw [List.scanl_cons, List.singleton_append, List.map_cons, hrest,
        List.map_cons, countRises]
      rw [hrest, List.map_cons] at ihCnt
      rw [ihCnt, List.foldl_cons]
      have hmono1 := txnCompleted_step_mono db tid c h
      have hmono2 := txnCompleted_run_mono cs (repoConfirmStep tid db c) tid
        hstep
      cases hb0 : txnIsCompleted db tid <;>
        cases hb1 : txnIsCompleted (repoConfirmStep tid db c) tid
      · simp [hb1]
      · have hfin := hmono2 hb1
        simp [hfin, hb1]
      · rw [hmono1 hb0] at hb1
        exact Bool.noConfusion hb1
      · have hfin := hmono2 hb1
        simp [hfin, hb0, hb1]

/-- C4: from the proposed state (`Pending`, both flags false), after any
sequence of repository confirmation calls the transaction's status is
`Completed` exactly when both confirmation flags are true — at every point
of the trace — and the `Pending → Completed` transition happens exactly
once when the run ends completed (and never otherwise); the transition is
performed by the call whose re-read observes both flags true. -/
theorem barterTxn_completed_iff_both_flags {α} (base : DB α) (tid cid : Nat)
    (calls : List (Bool × Nat)) :
    (∀ db ∈ List.scanl (repoConfirmStep tid)
        ({ base with txns := [proposedBarterTxn tid cid] } : DB α) calls,
      ∃ t, findTxn db tid = some t ∧
        (t.status = "Completed" ↔
          (t.ownerConfirmed = true ∧ t.offererConfirmed = true))) ∧
    countRises ((List.scanl (repoConfirmStep tid)
        ({ base with txns := [proposedBarterTxn tid cid] } : DB α) calls).map
        (fun d => txnIsCompleted d tid)) =
      (if txnIsCompleted (runRepoConfirms tid
          { base with txns := [proposedBarterTxn tid cid] } calls) tid = true
        then 1 else 0) := by
  have h0 : singleTxnInv
      ({ base with txns := [proposedBarterTxn tid cid] } : DB α) tid := by
    refine ⟨proposedBarterTxn tid cid, rfl, rfl, ?_⟩
    simp [proposedBarterTxn]
  obtain ⟨hInv, hCnt⟩ := c4_run_aux calls _ tid h0
  constructor
  · intro db hdb
    obtain ⟨t, hbase, hid, hiff⟩ := hInv db hdb
    exact ⟨t, by simp [findTxn, hbase, hid], hiff⟩
  · rw [show runRepoConfirms tid
        ({ base with txns := [proposedBarterTxn tid cid] } : DB α) calls =
      calls.foldl (repoConfirmStep tid)
        ({ base with txns := [proposedBarterTxn tid cid] } : DB α) from rfl]
    rw [hCnt]
    have hini : txnIsCompleted
        ({ base with txns := [proposedBarterTxn tid cid] } : DB α) tid =
        false := by
      simp [txnIsCompleted, findTxn, proposedBarterTxn]
    rw [hini]
    simp

/-- Helper: the per-item status updates of the finalize never touch the
chats table. -/
theorem foldl_updateItemStatus_chats {α} (l : List BarterTxnItemRow)
    (db : DB α) :
    (l.foldl (fun d ti => updateBarterItemStatus d ti.barterItemId
      "Completed") db).chats = db.chats := by
  induction l generalizing db with
  | nil => rfl
  | cons a tl ih =>
    rw [List.foldl_cons, ih]
    rfl

/-- Helper: charging both participants on the two-entry ledger subtracts
the amount from each balance exactly once, provided the balances suffice
(the participants are distinct users). -/
theorem chargeBoth_pair (o w : String) (b1 b2 amt : Int) (how : o ≠ w) :
    chargeBothParticipants [(o, b1), (w, b2)] o w amt =
      (if b1 ≥ amt ∧ b2 ≥ amt then some [(o, b1 - amt), (w, b2 - amt)]
       else none) := by
  have hwo : ¬ (w = o) := fun hh => how hh.symm
  by_cases hb1 : b1 ≥ amt
  · by_cases hb2 : b2 ≥ amt
    · rw [if_pos ⟨hb1, hb2⟩]
      simp [chargeBothParticipants, chargeCoins, lookupBalance, List.find?,
        hwo, how, hb1, hb2]
    · rw [if_neg (fun hh => hb2 hh.2)]
      simp [chargeBothParticipants, chargeCoins, lookupBalance, List.find?,
        hwo, how, hb1, hb2]
  · rw [if_neg (fun hh => hb1 hh.1)]
    simp [chargeBothParticipants, chargeCoins, lookupBalance, List.find?,
      hwo, how, hb1]

/-- Helper: one service confirmation call preserves the charged-once
invariant, whoever calls it and whether or not the charge succeeds. -/
theorem svcRunInv_step {α} (tid cid : Nat) (o w : String) (b1 b2 : Int)
    (how : o ≠ w) (s : Sys α) (c : String × Nat)
    (h : svcRunInv tid cid o w b1 b2 s) :
    svcRunInv tid cid o w b1 b2 (svcConfirmStep tid s c) := by
  obtain ⟨t, ch, htxns, hchats, hid, hcid, hchid, hcho, hchw, hmoney⟩ := h
  have hft : findTxn s.db tid = some t := by
    simp [findTxn, htxns, hid]
  have hfc : findChat s.db t.chatId = some ch := by
    simp [findChat, hchats, hchid, hcid]
  obtain ⟨u, n⟩ := c
  unfold svcConfirmStep confirmBarterCompletion
  simp only [hft, hfc]
  by_cases hu : u ≠ ch.ownerId ∧ u ≠ ch.offererId
  · rw [if_pos hu]
    exact ⟨t, ch, htxns, hchats, hid, hcid, hchid, hcho, hchw, hmoney⟩
  · rw [if_neg hu]
    by_cases hcompleted : t.status = "Completed"
    · rw [if_pos hcompleted]
      exact ⟨t, ch, htxns, hchats, hid, hcid, hchid, hcho, hchw, hmoney⟩
    · rw [if_neg hcompleted]
      have hpend : t.status = "Pending" ∧ t.coinsCharged = 0 ∧
          s.ledger = [(o, b1), (w, b2)] := by
        rcases hmoney with hp | hc
        · exact hp
        · exact (hcompleted hc.1).elim
      set t1 : BarterTxnRow := if u = ch.ownerId
        then { t with ownerConfirmed := true }
        else { t with offererConfirmed := true } with ht1
      have ht1id : t1.id = tid := by
        rw [ht1]; split <;> exact hid
      have ht1chat : t1.chatId = cid := by
        rw [ht1]; split <;> exact hcid
      have ht1status : t1.status = t.status := by
        rw [ht1]; split <;> rfl
      have ht1coins : t1.coinsCharged = t.coinsCharged := by
        rw [ht1]; split <;> rfl
      have hmap : s.db.txns.map (fun x => if x.id = tid then
          (if u = ch.ownerId then { x with ownerConfirmed := true }
           else { x with offererConfirmed := true }) else x) = [t1] := by
        rw [htxns]
        simp [hid, ht1]
      by_cases hboth : (t1.ownerConfirmed && t1.offererConfirmed) = true
      · rw [if_pos hboth]
        rw [hpend.2.2, hcho, hchw, chargeBoth_pair o w b1 b2 _ how]
        by_cases hbal : b1 ≥ (BARTER_TRANSACTION_COIN_COST : Int) ∧
            b2 ≥ (BARTER_TRANSACTION_COIN_COST : Int)
        · rw [if_pos hbal]
          simp only []
          refine ⟨({ t1 with status := "Completed", completedAt := some n, coinsCharged := BARTER_TRANSACTION_COIN_COST } : BarterTxnRow),
            ({ ch with status := "Completed" } : BarterChatRow), ?_, ?_,
            ht1id, ht1chat, hchid, hcho, hchw, Or.inr ⟨rfl, rfl, rfl⟩⟩
          · simp only [foldl_updateItemStatus_txns, updateBarterChatStatus]
            rcases eq_or_ne u o with hu2 | hu2 <;>
              simp [htxns, hid, ht1, hcho, hu2]
          · simp only [foldl_updateItemStatus_chats, updateBarterChatStatus]
            simp [hchats, hchid, hcid]
        · rw [if_neg hbal]
          simp only []
          refine ⟨t1, ch, ?_, hchats, ht1id, ht1chat, hchid, hcho, hchw,
            Or.inl ⟨?_, ?_, ?_⟩⟩
          · rcases eq_or_ne u o with hu2 | hu2 <;>
              simp [htxns, hid, ht1, hcho, hu2]
          · rw [ht1status]; exact hpend.1
          · rw [ht1coins]; exact hpend.2.1
          · rfl
      · rw [if_neg hboth]
        simp only []
        refine ⟨t1, ch, hmap, hchats, ht1id, ht1chat, hchid, hcho, hchw,
          Or.inl ⟨?_, ?_, ?_⟩⟩
        · rw [ht1status]; exact hpend.1
        · rw [ht1coins]; exact hpend.2.1
        · exact hpend.2.2

/-- Helper: the charged-once invariant holds after any run of service
confirmation calls from the proposed state. -/
theorem svcRunInv_run {α} (tid cid : Nat) (o w : String) (b1 b2 : Int)
    (how : o ≠ w) (calls : List (String × Nat)) (s : Sys α)
    (h : svcRunInv tid cid o w b1 b2 s) :
    svcRunInv tid cid o w b1 b2 (runSvcConfirms tid s calls) := by
  induction calls generalizing s with
  | nil => exact h
  | cons a tl ih =>
    rw [runSvcConfirms, List.foldl_cons]
    exact ih _ (svcRunInv_step tid cid o w b1 b2 how s a h)

/-- C1: starting from the proposed transaction between distinct
participants, after any sequence of `confirmCompletion` calls that ends
with the transaction `Completed`, the fixed per-transaction cost has been
charged through the coin ledger exactly once against each participant's
balance — not accumulated per call — and that cost (5 coins, not 5 per
participant) is recorded once in the transaction's coins-charged field. -/
theorem barterFinalize_charges_cost_once {α}
    (its : List (BarterItemRow α)) (tis : List BarterTxnItemRow)
    (s3v : List String) (tid cid bitm lmt : Nat) (o w : String)
    (b1 b2 : Int) (calls : List (String × Nat)) (how : o ≠ w)
    (hfin : txnIsCompleted (runSvcConfirms tid
      (svcInitSys its tis s3v tid cid bitm lmt o w b1 b2) calls).db tid =
      true) :
    (runSvcConfirms tid (svcInitSys its tis s3v tid cid bitm lmt o w b1 b2)
        calls).ledger =
      [(o, b1 - BARTER_TRANSACTION_COIN_COST),
       (w, b2 - BARTER_TRANSACTION_COIN_COST)] ∧
    ∃ t, findTxn (runSvcConfirms tid
        (svcInitSys its tis s3v tid cid bitm lmt o w b1 b2) calls).db tid =
      some t ∧ t.coinsCharged = BARTER_TRANSACTION_COIN_COST := by
  have h0 : svcRunInv tid cid o w b1 b2
      (svcInitSys its tis s3v tid cid bitm lmt o w b1 b2) := by
    refine ⟨proposedBarterTxn tid cid, ⟨cid, bitm, w, o, "Active", lmt⟩,
      rfl, rfl, rfl, rfl, rfl, rfl, rfl, Or.inl ⟨rfl, rfl, rfl⟩⟩
  have hrun := svcRunInv_run tid cid o w b1 b2 how calls _ h0
  obtain ⟨t, ch, htxns, hchats, hid, hcid, hchid, hcho, hchw, hmoney⟩ := hrun
  have hft : findTxn (runSvcConfirms tid
      (svcInitSys its tis s3v tid cid bitm lmt o w b1 b2) calls).db tid =
      some t := by
    simp [findTxn, htxns, hid]
  have hst : t.status = "Completed" := by
    unfold txnIsCompleted at hfin
    rw [hft] at hfin
    exact of_decide_eq_true hfin
  rcases hmoney with hp | hc
  · rw [hp.1] at hst
    exact absurd hst (by decide)
  · exact ⟨hc.2.2, t, hft, hc.2.1⟩

set_option maxRecDepth 100000 in
/-- Witness for `barterFinalize_charges_cost_once`: owner then offerer
confirm; the run completes the transaction, both balances drop by 5 and
`coins_charged` is 5. -/
theorem barterFinalize_charges_cost_once_witness :
    ("ownerU" ≠ "offV") ∧
    txnIsCompleted (runSvcConfirms 1
      (svcInitSys ([] : List (BarterItemRow ℚ)) [] [] 1 7 3 0 "ownerU"
        "offV" 10 7) [("ownerU", 1), ("offV", 2)]).db 1 = true ∧
    ((runSvcConfirms 1 (svcInitSys ([] : List (BarterItemRow ℚ)) [] [] 1 7 3
        0 "ownerU" "offV" 10 7) [("ownerU", 1), ("offV", 2)]).ledger =
      [("ownerU", (10 : Int) - BARTER_TRANSACTION_COIN_COST),
       ("offV", (7 : Int) - BARTER_TRANSACTION_COIN_COST)] ∧
     ∃ t, findTxn (runSvcConfirms 1 (svcInitSys
        ([] : List (BarterItemRow ℚ)) [] [] 1 7 3 0 "ownerU" "offV" 10 7)
        [("ownerU", 1), ("offV", 2)]).db 1 = some t ∧
       t.coinsCharged = BARTER_TRANSACTION_COIN_COST) :=
  ⟨by decide, by decide,
    barterFinalize_charges_cost_once ([] : List (BarterItemRow ℚ)) [] [] 1 7
      3 0 "ownerU" "offV" 10 7 [("ownerU", 1), ("offV", 2)] (by decide)
      (by decide)⟩

/-- Helper: a numeric upper bound on the square root of two. -/
theorem sqrt_two_le : Real.sqrt 2 ≤ 1.42 := by
  rw [show (1.42 : ℝ) = Real.sqrt (1.42 ^ 2) from
    (Real.sqrt_sq (by norm_num)).symm]
  exact Real.sqrt_le_sqrt (by norm_num)

/-- Helper: a numeric lower bound on the square root of three. -/
theorem sqrt_three_ge : (1.73 : ℝ) ≤ Real.sqrt 3 := by
  rw [show (1.73 : ℝ) = Real.sqrt (1.73 ^ 2) from
    (Real.sqrt_sq (by norm_num)).symm]
  exact Real.sqrt_le_sqrt (by norm_num)

/-- Helper: the radius `c7RadiusKm`, in metres. -/
theorem c7_radiusMeters : c7RadiusKm * 1000 = 2 * Real.pi * earthRadius / 3 := by
  unfold c7RadiusKm
  ring

/-- Helper: the box half-width for `c7RadiusKm` is `earth() * sqrt 3`. -/
theorem c7_gcToSec : gcToSec (c7RadiusKm * 1000) = earthRadius * Real.sqrt 3 := by
  rw [c7_radiusMeters]
  unfold gcToSec
  have hR : (0 : ℝ) < earthRadius := by norm_num [earthRadius]
  have hmin : min (2 * Real.pi * earthRadius / 3) (Real.pi * earthRadius) =
      2 * Real.pi * earthRadius / 3 := by
    apply min_eq_left
    nlinarith [Real.pi_pos]
  rw [hmin]
  have harg : 2 * Real.pi * earthRadius / 3 / (2 * earthRadius) =
      Real.pi / 3 := by
    field_simp
    ring
  rw [harg, Real.sin_pi_div_three]
  ring

/-- Helper: cosine at three quarters of a half-turn. -/
theorem cos_three_pi_div_four :
    Real.cos (3 * Real.pi / 4) = -(Real.sqrt 2 / 2) := by
  rw [show (3 * Real.pi / 4) = Real.pi - Real.pi / 4 by ring,
    Real.cos_pi_sub, Real.cos_pi_div_four]

/-- Helper: sine at three quarters of a half-turn. -/
theorem sin_three_pi_div_four :
    Real.sin (3 * Real.pi / 4) = Real.sqrt 2 / 2 := by
  rw [show (3 * Real.pi / 4) = Real.pi - Real.pi / 4 by ring,
    Real.sin_pi_sub, Real.sin_pi_div_four]

/-- Helper: the stored point at longitude 135° lies inside the `earth_box`
of radius `c7RadiusKm` around the origin. -/
theorem c7_box : earthBoxContains 0 0 (c7RadiusKm * 1000) 0 135 := by
  unfold earthBoxContains llToEarth
  rw [c7_gcToSec]
  have h0 : deg2rad 0 = 0 := by unfold deg2rad; ring
  have h135 : deg2rad 135 = 3 * Real.pi / 4 := by unfold deg2rad; ring
  rw [h0, h135, cos_three_pi_div_four, sin_three_pi_div_four]
  have hR : (earthRadius : ℝ) = 6378168 := rfl
  have hs2 := sqrt_two_le
  have hs3 := sqrt_three_ge
  have hs2n := Real.sqrt_nonneg 2
  have hs3n := Real.sqrt_nonneg 3
  refine ⟨?_, ?_, ?_⟩
  · simp only [Real.cos_zero, Real.sin_zero]
    rw [abs_le]
    constructor <;> nlinarith
  · simp only [Real.cos_zero, Real.sin_zero]
    rw [abs_le]
    constructor <;> nlinarith
  · simp only [Real.cos_zero, Real.sin_zero]
    rw [abs_le]
    constructor <;> nlinarith

/-- Helper: the great-circle distance from the origin to the stored point
is three eighths of the circumference. -/
theorem c7_dist :
    greatCircleDistance 0 0 0 135 = earthRadius * (3 * Real.pi / 4) := by
  unfold greatCircleDistance
  have h0 : deg2rad 0 = 0 := by unfold deg2rad; ring
  have h135 : deg2rad 135 = 3 * Real.pi / 4 := by unfold deg2rad; ring
  rw [h0, h135]
  simp only [Real.sin_zero, Real.cos_zero, mul_zero, zero_mul, one_mul,
    zero_add]
  rw [show (0 - 3 * Real.pi / 4) = -(3 * Real.pi / 4) by ring, Real.cos_neg]
  rw [Real.arccos_cos (by positivity) (by nlinarith [Real.pi_pos])]

/-- C7 (counterexample): the `WHERE` clause of `GetNearbyBarterItems` is
the `earth_box` bounding-box test with no `earth_distance` recheck, so the
query admits the stored item even though its great-circle distance from
the query point strictly exceeds the requested radius: with the query at
the origin and radius `c7RadiusKm`, the item at longitude 135° is exactly
the result set, yet its distance is `radius * 9 / 8`. -/
theorem getNearby_returns_item_beyond_radius :
    nearbyResultSem [c7Item] 0 0 c7RadiusKm "req1" false "" 0 ⟨2025, 1, 1⟩
      [c7Item] ∧
    greatCircleDistance 0 0 c7Item.latitude c7Item.longitude >
      c7RadiusKm * 1000 := by
  constructor
  · refine ⟨?_, ?_⟩
    · simp
    · intro it
      constructor
      · intro hit
        rw [List.mem_singleton] at hit
        subst hit
        refine ⟨List.mem_singleton_self _, c7_box, ?_, ?_, ?_⟩
        · simp [nearbyStatusOk, c7Item]
        · simp [nearbyUserOk, c7Item]
        · exact Or.inl (by norm_num)
      · exact fun hh => hh.1
  · show greatCircleDistance 0 0 0 135 > c7RadiusKm * 1000
    rw [c7_dist, c7_radiusMeters]
    have hR : (earthRadius : ℝ) = 6378168 := rfl
    nlinarith [Real.pi_pos]

/-- C7 (amended): the results of `GetNearbyBarterItems` are ordered by
non-decreasing great-circle distance from the query point, and the
retained set is exactly the stored rows passing the status / own-items /
expiry filters that lie inside the `earth_box` bounding cube of the radius
— membership in that cube, not a great-circle distance comparison, so items
at distance `radius + ε` inside the cube are returned as well. -/
theorem getNearby_sorted_and_box_filtered
    (rows : List (BarterItemRow ℝ)) (lat lng radiusKm : ℝ) (uid : String)
    (own : Bool) (sp : String) (emd : Int) (cutoff : DateYMD)
    (res : List (BarterItemRow ℝ))
    (h : nearbyResultSem rows lat lng radiusKm uid own sp emd cutoff res) :
    List.Pairwise (fun a b =>
      greatCircleDistance lat lng a.latitude a.longitude ≤
        greatCircleDistance lat lng b.latitude b.longitude) res ∧
    ∀ it ∈ res, earthBoxContains lat lng (radiusKm * 1000) it.latitude
      it.longitude ∧ nearbyStatusOk sp it.status :=
  ⟨h.1, fun it hit =>
    ⟨((h.2 it).mp hit).2.1, ((h.2 it).mp hit).2.2.1⟩⟩

/-- Witness for `getNearby_sorted_and_box_filtered`: the empty store. -/
theorem getNearby_sorted_and_box_filtered_witness :
    nearbyResultSem [] 0 0 1 "u" false "" 0 ⟨2025, 1, 1⟩ [] ∧
    (List.Pairwise (fun a b =>
        greatCircleDistance 0 0 a.latitude a.longitude ≤
          greatCircleDistance 0 0 b.latitude b.longitude) ([] : List (BarterItemRow ℝ)) ∧
     ∀ it ∈ ([] : List (BarterItemRow ℝ)),
       earthBoxContains 0 0 ((1 : ℝ) * 1000) it.latitude it.longitude ∧
       nearbyStatusOk "" it.status) :=
  have hsem : nearbyResultSem [] 0 0 1 "u" false "" 0 ⟨2025, 1, 1⟩ [] :=
    ⟨List.Pairwise.nil, by simp⟩
  ⟨hsem, getNearby_sorted_and_box_filtered [] 0 0 1 "u" false "" 0
    ⟨2025, 1, 1⟩ [] hsem⟩

end Arkavidia
